import Mathlib

/-!
Verification of the `will` FileStorage backend
(`src/will/storage/file_storage.py`) against its specification.

The settings directory is modelled as a finite list of
(filename, contents) pairs: the regular files directly inside
`self.dirname`.  All paths in the source are `os.path.join(self.dirname, n)`
for a relative name `n`, so files are identified here by that relative
name.  The clock (`time.time()`) is passed in as an integer `now`
parameter; file permissions and modification times are not modelled.
-/

namespace FileStorage

/-- The regular files directly inside the settings directory:
(name, contents) pairs. -/
abbrev Dir := List (String × String)

/-- Contents of the file named `m`, if it exists (first match wins). -/
def lookupFile : Dir → String → Option String
  | [], _ => none
  | (n, c) :: rest, m => if n = m then some c else lookupFile rest m

/-- `os.path.exists` for a file inside the directory. -/
def fexists (d : Dir) (m : String) : Bool :=
  (lookupFile d m).isSome

/-- `open(n, 'w'); f.write(c)`: truncate-then-write, replacing any
previous file of the same name. -/
def writeFile (d : Dir) (n c : String) : Dir :=
  (n, c) :: d.filter (fun p => p.1 != n)

/-- `os.unlink(n)`: remove the file named `n`. -/
def unlink (d : Dir) (n : String) : Dir :=
  d.filter (fun p => p.1 != n)

/-- `self.dotfile = os.path.join(self.dirname, ".will_settings")`. -/
def dotfileName : String := ".will_settings"

/-- First component of `_key_paths`: `os.path.join(self.dirname, key)`. -/
def key_path (key : String) : String := key

/-- Second component of `_key_paths`:
`os.path.join(self.dirname, '.' + key + '.expires')`. -/
def expire_path (key : String) : String := "." ++ key ++ ".expires"

/-- `FileStorage.save(key, value, expire)` on a fault-free filesystem. -/
def save (d : Dir) (key value : String) (expire : Option String) : Dir :=
  let d1 := writeFile d (key_path key) value
  match expire with
  | some e => writeFile d1 (expire_path key) e
  | none =>
    if fexists d1 (expire_path key) then unlink d1 (expire_path key) else d1

/-- `FileStorage.clear(key)` on a fault-free filesystem. -/
def clear (d : Dir) (key : String) : Dir :=
  let d1 := if fexists d (key_path key) then unlink d (key_path key) else d
  if fexists d1 (expire_path key) then unlink d1 (expire_path key) else d1

/-- Python whitespace characters accepted around `int(...)` input. -/
def isPySpace (c : Char) : Bool :=
  c = ' ' || c = '\t' || c = '\n' || c = '\r' || c = '\x0b' || c = '\x0c'

/-- Drop leading Python whitespace. -/
def skipWs : List Char → List Char
  | [] => []
  | c :: rest => if isPySpace c then skipWs rest else c :: rest

/-- Numeric value of a list of decimal digits. -/
def digitsVal (ds : List Char) : Nat :=
  ds.foldl (fun a c => a * 10 + (c.toNat - '0'.toNat)) 0

/-- Python `int(s)`: optional surrounding whitespace, optional sign,
one or more decimal digits; anything else raises `ValueError` (`none`). -/
def pyInt (s : String) : Option Int :=
  let cs := skipWs s.data
  let (neg, cs2) :=
    match cs with
    | '-' :: r => (true, r)
    | '+' :: r => (false, r)
    | _ => (false, cs)
  let ds := cs2.takeWhile (fun c => c.isDigit)
  let rest := cs2.dropWhile (fun c => c.isDigit)
  if ds.isEmpty then none
  else if (skipWs rest).isEmpty then
    some (if neg then -(digitsVal ds : Int) else (digitsVal ds : Int))
  else none

/-- Outcome of `FileStorage.load`: the returned value, an implicit
`return None` (absence), or an uncaught `ValueError` from `int(...)`. -/
inductive LoadOutcome
  | found (v : String)
  | absent
  | valueError
deriving DecidableEq, Repr

/-- The trailing `if os.path.exists(key_path): return f.read()` of `load`. -/
def loadValue (d : Dir) (key : String) : LoadOutcome × Dir :=
  match lookupFile d (key_path key) with
  | some v => (.found v, d)
  | none => (.absent, d)

/-- `FileStorage.load(key)` on a fault-free filesystem, at clock `now`:
result together with the directory state afterwards. -/
def load (d : Dir) (key : String) (now : Int) : LoadOutcome × Dir :=
  match lookupFile d (expire_path key) with
  | some content =>
    match pyInt content with
    | none => (.valueError, d)
    | some ts =>
      if now > ts then (.absent, clear d key) else loadValue d key
  | none => loadValue d key

/-! ### Basic lemmas about the directory model -/

theorem lookup_filter_ne (d : Dir) (n m : String) :
    lookupFile (d.filter (fun p => p.1 != n)) m =
      if n = m then none else lookupFile d m := by
  induction d with
  | nil => simp [lookupFile]
  | cons hd tl ih =>
    obtain ⟨a, c⟩ := hd
    rcases eq_or_ne a n with han | han
    · subst han
      have hfc : ((a, c) :: tl).filter (fun p => p.1 != a) = tl.filter (fun p => p.1 != a) := by
        simp
      rw [hfc, ih]
      rcases eq_or_ne a m with ham | ham
      · simp [ham]
      · simp [lookupFile, ham]
    · have hb : ((a, c).1 != n) = true := by simpa using han
      simp only [List.filter_cons, hb]
      rcases eq_or_ne a m with ham | ham
      · subst ham
        have hnm : n ≠ a := fun h => han h.symm
        simp [lookupFile, hnm]
      · simp [lookupFile, ham, ih]

theorem lookup_writeFile (d : Dir) (n c m : String) :
    lookupFile (writeFile d n c) m = if n = m then some c else lookupFile d m := by
  simp only [writeFile, lookupFile, lookup_filter_ne]
  rcases eq_or_ne n m with h | h <;> simp [h]

theorem lookup_unlink (d : Dir) (n m : String) :
    lookupFile (unlink d n) m = if n = m then none else lookupFile d m :=
  lookup_filter_ne d n m

theorem expire_path_ne (s : String) : expire_path s ≠ s := by
  intro h
  have h' := congrArg String.length h
  rw [expire_path, String.length_append, String.length_append] at h'
  have h1 : (".").length = 1 := rfl
  have h2 : (".expires").length = 8 := rfl
  omega

theorem key_path_ne_expire_path (k : String) : key_path k ≠ expire_path k := by
  intro h
  exact expire_path_ne k h.symm

theorem lookup_cond_unlink (d : Dir) (n : String) :
    lookupFile (if fexists d n then unlink d n else d) n = none := by
  split
  · simp [lookup_unlink]
  · rename_i h
    simpa [fexists, Option.not_isSome_iff_eq_none] using h

theorem lookup_cond_unlink_ne (d : Dir) (n m : String) (h : n ≠ m) :
    lookupFile (if fexists d n then unlink d n else d) m = lookupFile d m := by
  split
  · simp [lookup_unlink, h]
  · rfl

/-! ### Lemmas about `save` and `clear` -/

theorem lookup_save_key (d : Dir) (k v : String) (e : Option String) :
    lookupFile (save d k v e) (key_path k) = some v := by
  have hne : expire_path k ≠ key_path k := Ne.symm (key_path_ne_expire_path k)
  cases e with
  | some x => simp [save, lookup_writeFile, hne]
  | none =>
    simp only [save]
    rw [lookup_cond_unlink_ne _ _ _ hne]
    simp [lookup_writeFile]

theorem lookup_save_ep_none (d : Dir) (k v : String) :
    lookupFile (save d k v none) (expire_path k) = none := by
  simp only [save]
  exact lookup_cond_unlink _ _

theorem lookup_save_ep_some (d : Dir) (k v e : String) :
    lookupFile (save d k v (some e)) (expire_path k) = some e := by
  simp [save, lookup_writeFile]

theorem lookup_save_frame (d : Dir) (k v : String) (e : Option String) (m : String)
    (h1 : m ≠ key_path k) (h2 : m ≠ expire_path k) :
    lookupFile (save d k v e) m = lookupFile d m := by
  cases e with
  | some x => simp [save, lookup_writeFile, Ne.symm h1, Ne.symm h2]
  | none =>
    simp only [save]
    rw [lookup_cond_unlink_ne _ _ _ (Ne.symm h2), lookup_writeFile, if_neg (Ne.symm h1)]

theorem lookup_clear_key (d : Dir) (k : String) :
    lookupFile (clear d k) (key_path k) = none := by
  have hne : expire_path k ≠ key_path k := Ne.symm (key_path_ne_expire_path k)
  simp only [clear]
  rw [lookup_cond_unlink_ne _ _ _ hne]
  exact lookup_cond_unlink _ _

theorem lookup_clear_ep (d : Dir) (k : String) :
    lookupFile (clear d k) (expire_path k) = none := by
  simp only [clear]
  exact lookup_cond_unlink _ _

theorem lookup_clear_frame (d : Dir) (k m : String)
    (h1 : m ≠ key_path k) (h2 : m ≠ expire_path k) :
    lookupFile (clear d k) m = lookupFile d m := by
  simp only [clear]
  rw [lookup_cond_unlink_ne _ _ _ (Ne.symm h2), lookup_cond_unlink_ne _ _ _ (Ne.symm h1)]

theorem clear_eq_self (d : Dir) (k : String)
    (h1 : lookupFile d (key_path k) = none)
    (h2 : lookupFile d (expire_path k) = none) :
    clear d k = d := by
  simp only [clear]
  rw [if_neg, if_neg]
  · simp [fexists, h1, h2]
  · simp [fexists, h1, h2]

/-! ### Model of `FileStorage.__init__` -/

/-- The on-disk state of the settings directory before construction. -/
inductive DirState
  | absent
  | present (files : Dir)
deriving DecidableEq, Repr

/-- Outcome of `FileStorage.__init__`: success carries the directory
contents afterwards; failure (the `FileStorageException` raise) carries
the directory contents at the raise, which the source reaches before any
mutation. -/
inductive InitOutcome
  | success (files : Dir)
  | failure (files : Dir)
deriving DecidableEq, Repr

/-- `open(self.dotfile, 'a')` then `os.utime(self.dotfile, None)`:
create the marker file empty if missing, otherwise leave its contents
alone (only the mtime, unmodelled, changes). -/
def touchMarker (files : Dir) : Dir :=
  if fexists files dotfileName then files else writeFile files dotfileName ""

/-- `FileStorage.__init__` restricted to the settings directory: create
it when missing, refuse a non-empty unmarked directory (the
`_all_setting_files` listing is the whole model state, which holds
exactly the regular files directly inside the directory), then touch the
marker.  Permissions (`os.makedirs` mode, `os.chmod`) are not modelled. -/
def init : DirState → InitOutcome
  | .absent => .success (touchMarker [])
  | .present fs =>
    if fexists fs dotfileName = false ∧ 0 < fs.length then .failure fs
    else .success (touchMarker fs)

/-! ### Fault-injected filesystem

The source wraps none of its filesystem calls in try/except, so any
`OSError`/`IOError` raised by open/read/write/unlink propagates to the
caller unchanged; the module's own `FileStorageException` is raised only
inside `__init__`. -/

/-- Python exceptions that can escape the storage operations. -/
inductive PyErr
  | osError
  | valueError
  | fileStorageException
deriving DecidableEq, Repr

/-- Which filesystem primitives fail with `OSError`/`IOError`
(permission denied, disk full, I/O error), by file name. -/
structure Faults where
  writeFails : String → Bool
  unlinkFails : String → Bool
  readFails : String → Bool

/-- `if os.path.exists(n): os.unlink(n)` over the fault-injected
filesystem. -/
def unlinkIfExistsF (φ : Faults) (d : Dir) (n : String) : Except PyErr Dir :=
  if fexists d n then
    if φ.unlinkFails n then .error .osError else .ok (unlink d n)
  else .ok d

/-- `FileStorage.save` over the fault-injected filesystem. -/
def saveF (φ : Faults) (d : Dir) (key value : String) (expire : Option String) :
    Except PyErr Dir :=
  if φ.writeFails (key_path key) then .error .osError else
  let d1 := writeFile d (key_path key) value
  match expire with
  | some e =>
    if φ.writeFails (expire_path key) then .error .osError
    else .ok (writeFile d1 (expire_path key) e)
  | none => unlinkIfExistsF φ d1 (expire_path key)

/-- `FileStorage.clear` over the fault-injected filesystem. -/
def clearF (φ : Faults) (d : Dir) (key : String) : Except PyErr Dir :=
  match unlinkIfExistsF φ d (key_path key) with
  | .error e => .error e
  | .ok d1 => unlinkIfExistsF φ d1 (expire_path key)

/-- The trailing value-file read of `load`, fault-injected. -/
def loadValueF (φ : Faults) (d : Dir) (key : String) :
    Except PyErr (LoadOutcome × Dir) :=
  match lookupFile d (key_path key) with
  | some v =>
    if φ.readFails (key_path key) then .error .osError else .ok (.found v, d)
  | none => .ok (.absent, d)

/-- `FileStorage.load` over the fault-injected filesystem. -/
def loadF (φ : Faults) (d : Dir) (key : String) (now : Int) :
    Except PyErr (LoadOutcome × Dir) :=
  match lookupFile d (expire_path key) with
  | some content =>
    if φ.readFails (expire_path key) then .error .osError
    else match pyInt content with
      | none => .error .valueError
      | some ts =>
        if now > ts then
          match clearF φ d key with
          | .error e => .error e
          | .ok d1 => .ok (.absent, d1)
        else loadValueF φ d key
  | none => loadValueF φ d key

/-! ### Error classification for the fault-injected operations -/

theorem unlinkIfExistsF_error (φ : Faults) (d : Dir) (n : String) (err : PyErr)
    (h : unlinkIfExistsF φ d n = .error err) : err = .osError := by
  unfold unlinkIfExistsF at h
  split at h
  · split at h
    · injection h with h'
      exact h'.symm
    · exact Except.noConfusion h
  · exact Except.noConfusion h

theorem saveF_error (φ : Faults) (d : Dir) (k v : String) (e : Option String)
    (err : PyErr) (h : saveF φ d k v e = .error err) : err = .osError := by
  cases e with
  | some x =>
    simp only [saveF] at h
    split at h
    · injection h with h'
      exact h'.symm
    · split at h
      · injection h with h'
        exact h'.symm
      · exact Except.noConfusion h
  | none =>
    simp only [saveF] at h
    split at h
    · injection h with h'
      exact h'.symm
    · exact unlinkIfExistsF_error _ _ _ _ h

theorem clearF_error (φ : Faults) (d : Dir) (k : String) (err : PyErr)
    (h : clearF φ d k = .error err) : err = .osError := by
  cases hu : unlinkIfExistsF φ d (key_path k) with
  | error e =>
    simp only [clearF, hu] at h
    injection h with h'
    exact h' ▸ unlinkIfExistsF_error _ _ _ _ hu
  | ok d1 =>
    simp only [clearF, hu] at h
    exact unlinkIfExistsF_error _ _ _ _ h

theorem loadValueF_error (φ : Faults) (d : Dir) (k : String) (err : PyErr)
    (h : loadValueF φ d k = .error err) : err = .osError := by
  unfold loadValueF at h
  split at h
  · split at h
    · injection h with h'
      exact h'.symm
    · exact Except.noConfusion h
  · exact Except.noConfusion h

theorem loadF_error (φ : Faults) (d : Dir) (k : String) (now : Int) (err : PyErr)
    (h : loadF φ d k now = .error err) : err = .osError ∨ err = .valueError := by
  cases hc : lookupFile d (expire_path k) with
  | none =>
    simp only [loadF, hc] at h
    exact Or.inl (loadValueF_error _ _ _ _ h)
  | some content =>
    simp only [loadF, hc] at h
    split at h
    · injection h with h'
      exact Or.inl h'.symm
    · cases hp : pyInt content with
      | none =>
        simp only [hp] at h
        injection h with h'
        exact Or.inr h'.symm
      | some ts =>
        simp only [hp] at h
        split at h
        · cases hcl : clearF φ d k with
          | error e =>
            simp only [hcl] at h
            injection h with h'
            exact Or.inl (h' ▸ clearF_error _ _ _ _ hcl)
          | ok d1 =>
            simp only [hcl] at h
            exact Except.noConfusion h
        · exact Or.inl (loadValueF_error _ _ _ _ h)

/-! ### The claims -/

/-- Claim C1: for every key `k` and value `v`, `save(k, v)` with no
expiration followed by `load(k)` with no intervening operation returns
exactly the saved value `v` (and leaves the directory unchanged). -/
theorem save_load_roundtrip (d : Dir) (k v : String) (now : Int) :
    load (save d k v none) k now = (.found v, save d k v none) := by
  simp [load, loadValue, lookup_save_ep_none, lookup_save_key]

/-- Claim C2: when the expiry file of `k` exists and holds the integer
`ts`, `load` treats the entry as expired (deleting both files via `clear`
and reporting absence) exactly when the current time is strictly greater
than `ts`; a timestamp equal to now is not expired and nothing is
deleted. -/
theorem load_expiry_boundary (d : Dir) (k s : String) (ts now : Int)
    (h1 : lookupFile d (expire_path k) = some s) (h2 : pyInt s = some ts) :
    (load d k now = (.absent, clear d k) ↔ now > ts) ∧
    (¬ now > ts → (load d k now).2 = d) := by
  have hnotexp : ¬ now > ts → (load d k now).2 = d := by
    intro hng
    have hld : load d k now = loadValue d k := by
      simp [load, h1, h2, hng]
    rw [hld]
    unfold loadValue
    split <;> rfl
  refine ⟨⟨?_, ?_⟩, hnotexp⟩
  · intro h
    by_contra hng
    have hsnd : (load d k now).2 = d := hnotexp hng
    have hcd : d = clear d k := by
      have hc := congrArg Prod.snd h
      rw [hsnd] at hc
      exact hc
    have h4 := lookup_clear_ep d k
    rw [← hcd] at h4
    rw [h1] at h4
    exact Option.noConfusion h4
  · intro h
    simp [load, h1, h2, h]

/-- Claim C3: when the expiry file of `k` holds a timestamp strictly in
the past, `load(k)` deletes both the value and expiry files (the same
effect as `clear(k)`) and returns absence, not an error. -/
theorem load_expired_clears (d : Dir) (k s : String) (ts now : Int)
    (h1 : lookupFile d (expire_path k) = some s) (h2 : pyInt s = some ts)
    (h3 : ts < now) :
    load d k now = (.absent, clear d k) ∧
    lookupFile (load d k now).2 (key_path k) = none ∧
    lookupFile (load d k now).2 (expire_path k) = none := by
  have hl : load d k now = (.absent, clear d k) := by
    simp [load, h1, h2, h3]
  refine ⟨hl, ?_, ?_⟩ <;> rw [hl]
  · exact lookup_clear_key d k
  · exact lookup_clear_ep d k

/-- Claim C5: the expiry file exists iff a non-null expiration is
currently stored: `save` with an expiration writes it, `save` without
one deletes it, and `clear` removes it; after `save(k, v)` with no
expiration, `load(k)` returns `v` at every clock value, so the entry
never expires. -/
theorem expiry_file_invariant (d : Dir) (k v : String) :
    lookupFile (save d k v none) (expire_path k) = none ∧
    (∀ e, lookupFile (save d k v (some e)) (expire_path k) = some e) ∧
    lookupFile (clear d k) (expire_path k) = none ∧
    (∀ now : Int, load (save d k v none) k now = (.found v, save d k v none)) := by
  refine ⟨lookup_save_ep_none d k v, fun e => lookup_save_ep_some d k v e,
    lookup_clear_ep d k, fun now => ?_⟩
  simp [load, loadValue, lookup_save_ep_none, lookup_save_key]

/-- Claim C7: `clear(k)` deletes the value file and the expiry file when
present, touches no other file, and on a key with neither file present
it is a no-op: the directory is left exactly as it was, with no error. -/
theorem clear_spec (d : Dir) (k : String) :
    lookupFile (clear d k) (key_path k) = none ∧
    lookupFile (clear d k) (expire_path k) = none ∧
    (∀ m, m ≠ key_path k → m ≠ expire_path k →
      lookupFile (clear d k) m = lookupFile d m) ∧
    (lookupFile d (key_path k) = none → lookupFile d (expire_path k) = none →
      clear d k = d) :=
  ⟨lookup_clear_key d k, lookup_clear_ep d k,
   fun m h1 h2 => lookup_clear_frame d k m h1 h2,
   fun h1 h2 => clear_eq_self d k h1 h2⟩

/-- Witness for claim C7 at a concrete input: clearing a never-set key
in a directory holding only the marker changes nothing, and clearing a
set key removes its value file. -/
theorem clear_spec_witness :
    clear [(dotfileName, "")] "k" = [(dotfileName, "")] ∧
    lookupFile (clear [("k", "v")] "k") (key_path "k") = none :=
  ⟨(clear_spec [(dotfileName, "")] "k").2.2.2 rfl rfl,
   (clear_spec [("k", "v")] "k").1⟩

/-- Claim C8: the key-to-path derivation is not injective: the expiry
file of `k` is the value file of the distinct key `"." ++ k ++ ".expires"`,
and the key `".will_settings"` shares its value-file path with the
ownership marker, so saving under such keys overwrites the other
entry's file or the marker. -/
theorem key_path_collisions (d : Dir) (k v : String) :
    expire_path k = key_path ("." ++ k ++ ".expires") ∧
    ("." ++ k ++ ".expires") ≠ k ∧
    key_path ".will_settings" = dotfileName ∧
    lookupFile (save d ("." ++ k ++ ".expires") v none) (expire_path k) = some v ∧
    lookupFile (save d ".will_settings" v none) dotfileName = some v := by
  refine ⟨rfl, expire_path_ne k, rfl, ?_, ?_⟩
  · exact lookup_save_key d ("." ++ k ++ ".expires") v none
  · exact lookup_save_key d ".will_settings" v none

/-- Claim C9: when the expiry file of `k` holds a not-yet-expired
timestamp while the value file is absent, `load(k)` returns absence and
leaves the directory — including the orphan expiry file — unchanged. -/
theorem load_orphan_expiry (d : Dir) (k s : String) (ts now : Int)
    (h1 : lookupFile d (expire_path k) = some s) (h2 : pyInt s = some ts)
    (h3 : ¬ now > ts) (h4 : lookupFile d (key_path k) = none) :
    load d k now = (.absent, d) := by
  simp [load, loadValue, h1, h2, h3, h4]

/-- Claim C10: when the expiry file of `k` exists but its content does
not parse as a decimal integer, `load(k)` raises the uncaught
`ValueError` from `int(...)` — neither a value nor absence — and the
on-disk files are left unchanged. -/
theorem load_bad_expiry_content (d : Dir) (k s : String) (now : Int)
    (h1 : lookupFile d (expire_path k) = some s) (h2 : pyInt s = none) :
    load d k now = (.valueError, d) := by
  simp [load, h1, h2]

/-- Witness for claim C2 at a concrete input: with a stored timestamp of
5 and the clock at exactly 5, the entry is not expired and nothing is
deleted. -/
theorem load_expiry_boundary_witness :
    ((load [(".k.expires", "5")] "k" 5 = (.absent, clear [(".k.expires", "5")] "k")
        ↔ (5 : Int) > 5) ∧
      (¬ (5 : Int) > 5 → (load [(".k.expires", "5")] "k" 5).2 = [(".k.expires", "5")])) :=
  load_expiry_boundary [(".k.expires", "5")] "k" "5" 5 5 rfl rfl

/-- Witness for claim C3 at a concrete input: timestamp 5, clock 6. -/
theorem load_expired_clears_witness :
    load [(".k.expires", "5"), ("k", "v")] "k" 6
        = (.absent, clear [(".k.expires", "5"), ("k", "v")] "k") ∧
      lookupFile (load [(".k.expires", "5"), ("k", "v")] "k" 6).2 (key_path "k") = none ∧
      lookupFile (load [(".k.expires", "5"), ("k", "v")] "k" 6).2 (expire_path "k") = none :=
  load_expired_clears [(".k.expires", "5"), ("k", "v")] "k" "5" 5 6 rfl rfl (by decide)

/-- Witness for claim C9 at a concrete input: an orphan expiry file with
timestamp 9, clock 9, no value file. -/
theorem load_orphan_expiry_witness :
    load [(".k.expires", "9")] "k" 9 = (.absent, [(".k.expires", "9")]) :=
  load_orphan_expiry [(".k.expires", "9")] "k" "9" 9 9 rfl rfl (by decide) rfl

/-- Witness for claim C10 at a concrete input: expiry-file content
`"soon"` is not an integer. -/
theorem load_bad_expiry_content_witness :
    load [(".k.expires", "soon")] "k" 0 = (.valueError, [(".k.expires", "soon")]) :=
  load_bad_expiry_content [(".k.expires", "soon")] "k" "soon" 0 rfl rfl

/-- Claim C4: construction raises `FileStorageException` (the spec's
`StorageInitError`) iff the directory exists, lacks the ownership
marker, and directly contains at least one regular file; on that failure
the directory is left untouched (no file deleted, no marker created);
otherwise — directory absent, empty, or already marked — construction
succeeds and the marker file exists afterwards. -/
theorem init_claim :
    init .absent = .success [(dotfileName, "")] ∧
    ∀ fs : Dir,
      ((lookupFile fs dotfileName = none ∧ fs ≠ []) →
        init (.present fs) = .failure fs) ∧
      (∀ g, init (.present fs) = .failure g →
        g = fs ∧ lookupFile fs dotfileName = none ∧ fs ≠ []) ∧
      ((lookupFile fs dotfileName ≠ none ∨ fs = []) →
        ∃ g, init (.present fs) = .success g ∧ fexists g dotfileName = true) := by
  refine ⟨rfl, fun fs => ⟨?_, ?_, ?_⟩⟩
  · rintro ⟨hno, hne⟩
    have hb : fexists fs dotfileName = false := by simp [fexists, hno]
    have hlen : 0 < fs.length := List.length_pos.mpr hne
    simp [init, hb, hlen]
  · intro g hg
    by_cases hcond : fexists fs dotfileName = false ∧ 0 < fs.length
    · simp only [init] at hg
      rw [if_pos hcond] at hg
      injection hg with hg'
      refine ⟨hg'.symm, ?_, List.length_pos.mp hcond.2⟩
      cases ho : lookupFile fs dotfileName with
      | none => rfl
      | some c =>
        exfalso
        have hb := hcond.1
        simp [fexists, ho] at hb
    · simp only [init] at hg
      rw [if_neg hcond] at hg
      exact InitOutcome.noConfusion hg
  · intro hor
    refine ⟨touchMarker fs, ?_, ?_⟩
    · rcases hor with hs | hemp
      · have hb : fexists fs dotfileName = true := by
          simp [fexists, Option.isSome_iff_ne_none, hs]
        simp [init, hb]
      · subst hemp
        simp [init]
    · unfold touchMarker
      split
      · rename_i h
        exact h
      · simp [fexists, lookup_writeFile]

/-- Witness for claim C4 at concrete inputs: one foreign file and no
marker fails with the directory unchanged; an absent directory succeeds
with the marker created. -/
theorem init_claim_witness :
    init (.present [("foreign", "x")]) = .failure [("foreign", "x")] ∧
    init .absent = .success [(dotfileName, "")] :=
  ⟨(init_claim.2 [("foreign", "x")]).1 ⟨rfl, by decide⟩, init_claim.1⟩

/-- Claim C6 (amended): a filesystem failure injected into `save`,
`load` or `clear` propagates to the caller as the raw `OSError` — it is
never wrapped into the module's own exception class (the spec's
`StorageIOError`), which only `__init__` raises; `load` may additionally
raise `ValueError` from `int(...)`; and absence of a key or file is
never an error: loading a wholly absent key cleanly reports absence. -/
theorem storage_errors_propagate_raw (φ : Faults) (d : Dir) (k : String) :
    (∀ v e err, saveF φ d k v e = .error err → err = .osError) ∧
    (∀ err, clearF φ d k = .error err → err = .osError) ∧
    (∀ now err, loadF φ d k now = .error err → err = .osError ∨ err = .valueError) ∧
    (∀ now : Int, lookupFile d (expire_path k) = none →
      lookupFile d (key_path k) = none → load d k now = (.absent, d)) := by
  refine ⟨fun v e err h => saveF_error φ d k v e err h,
    fun err h => clearF_error φ d k err h,
    fun now err h => loadF_error φ d k now err h,
    fun now h1 h2 => ?_⟩
  simp [load, loadValue, h1, h2]

/-- Witness for claim C6 at concrete inputs: a failing write on the
value file of `"k"` surfaces as the raw `OSError`, and loading an absent
key in an empty directory reports absence without error. -/
theorem storage_errors_witness :
    PyErr.osError = PyErr.osError ∧ load [] "k" 0 = (.absent, []) :=
  ⟨(storage_errors_propagate_raw
      ⟨fun n => decide (n = "k"), fun _ => false, fun _ => false⟩ [] "k").1
      "v" none PyErr.osError rfl,
   (storage_errors_propagate_raw
      ⟨fun _ => false, fun _ => false, fun _ => false⟩ [] "k").2.2.2 0 rfl rfl⟩

/-- Counterexample to claim C6 as stated: when writing the value file of
`"k"` fails, `save` reports the raw `OSError`, not a module-level
storage error (`FileStorageException`, the code's only storage exception
class and the counterpart of the spec's `StorageIOError`). -/
theorem io_error_not_wrapped :
    saveF ⟨fun n => decide (n = "k"), fun _ => false, fun _ => false⟩ [] "k" "v" none
        = .error .osError ∧
      PyErr.osError ≠ PyErr.fileStorageException :=
  ⟨rfl, by decide⟩

end FileStorage
